import Mathlib

/-!
Verification of the twitter client library's streaming delivery engine,
pagination cursor protocol, and REST query constructors.

The streaming engine (`Client.Stream` / MessageFramer / StreamConsumer) and
the pagination helpers (`internal/ocall`) are not part of the visible source
tree (only their tests and delegating wrappers are), so those components are
modelled from the design document.  The per-endpoint query constructors and
`Invoke` methods (packages `oaccount` and `ostatus`) are embedded directly
from the Go source.
-/

namespace TwitterStream

/-- Modelled from the spec: StreamOutcome (§3), the tri-state result of one
callback invocation — Continue, StopRequested, or Failed(cause).  In the Go
API the callback returns `nil`, the sentinel `jhttp.ErrStopStreaming`, or an
arbitrary error; the spec's tagged form is used here.  `ε` is the caller's
error type. -/
inductive StreamOutcome (ε : Type) where
  | cont
  | stopRequested
  | failed (cause : ε)
deriving DecidableEq

/-- Modelled from the spec: a Frame (§3) — a raw payload extracted from the
stream, tagged as DataMessage, KeepAlive, or ErrorMessage.  An ErrorMessage
is classified fatal or advisory (§4.2); it carries its decoded cause. -/
inductive Frame (α : Type) where
  | dataMessage (payload : α)
  | keepAlive
  | errorMessage (fatal : Bool) (cause : α)
deriving DecidableEq

/-- Modelled from the spec: a framing error (§4.1 edge case) — a frame whose
size exceeds the configured maximum. -/
structure FramingError where
  size : Nat
  limit : Nat
deriving DecidableEq

/-- Modelled from the spec: the error taxonomy surfaced by a streaming
invocation (§7): framing errors, fatal provider-reported errors, and errors
returned by the caller's callback (the latter returned unchanged). -/
inductive StreamError (ε α : Type) where
  | framing (fe : FramingError)
  | provider (cause : α)
  | callbackFailed (e : ε)
deriving DecidableEq

/-- Modelled from the spec: the terminal states of one streaming invocation
(§4.2 state machine) — Closed (clean end-of-stream), Stopped
(caller-requested via StopRequested), or Failed. -/
inductive Terminal (ε α : Type) where
  | closed
  | stopped
  | failed (e : StreamError ε α)
deriving DecidableEq

/-- Modelled from the spec: the observable outcome of one streaming
invocation: the payloads delivered to the callback in order (one entry per
callback invocation), whether the byte source was closed, and the terminal
state. -/
structure Run (ε α : Type) where
  delivered : List α
  sourceClosed : Bool
  terminal : Terminal ε α
deriving DecidableEq

/-- The error returned by `asStream`: `none` means success.  Closed and
Stopped are both success (§7: caller-driven termination is not an error). -/
def Run.streamError {ε α : Type} (r : Run ε α) : Option (StreamError ε α) :=
  match r.terminal with
  | .failed e => some e
  | _ => none

/-- Modelled from the spec: the StreamConsumer frame loop (§4.2) over an
already-framed sequence.  KeepAlive frames are skipped; an advisory
ErrorMessage continues the loop and a fatal one aborts; a DataMessage is
delivered to the callback synchronously and the callback's outcome is
interpreted as continue/stop/fail; end of the list is end-of-stream.  The
byte source is closed on every exit path (§5). -/
def consume {ε α : Type} (cb : α → StreamOutcome ε) : List (Frame α) → Run ε α
  | [] => ⟨[], true, .closed⟩
  | .keepAlive :: rest => consume cb rest
  | .errorMessage true cause :: _ => ⟨[], true, .failed (.provider cause)⟩
  | .errorMessage false _ :: rest => consume cb rest
  | .dataMessage p :: rest =>
    match cb p with
    | .cont =>
      let r := consume cb rest
      ⟨p :: r.delivered, r.sourceClosed, r.terminal⟩
    | .stopRequested => ⟨[p], true, .stopped⟩
    | .failed e => ⟨[p], true, .failed (.callbackFailed e)⟩

/-- The data-message payloads of a frame sequence, in arrival order. -/
def dataPayloads {α : Type} (frames : List (Frame α)) : List α :=
  frames.filterMap fun f =>
    match f with
    | .dataMessage p => some p
    | _ => none

/-- Whether a frame is a fatal provider error message. -/
def Frame.isFatalErr {α : Type} : Frame α → Bool
  | .errorMessage true _ => true
  | _ => false

theorem dataPayloads_cons_keepAlive {α : Type} (rest : List (Frame α)) :
    dataPayloads (Frame.keepAlive :: rest) = dataPayloads rest := rfl

theorem dataPayloads_cons_error {α : Type} (fatal : Bool) (cause : α)
    (rest : List (Frame α)) :
    dataPayloads (Frame.errorMessage fatal cause :: rest) = dataPayloads rest := rfl

theorem dataPayloads_cons_data {α : Type} (p : α) (rest : List (Frame α)) :
    dataPayloads (Frame.dataMessage p :: rest) = p :: dataPayloads rest := rfl

/-- Processing a prefix that holds no fatal provider error and on whose data
payloads the callback always continues just prepends those payloads to the
run of the remaining frames — whatever those remaining frames are. -/
theorem consume_append_cont {ε α : Type} (cb : α → StreamOutcome ε) :
    ∀ pre rest : List (Frame α),
      (∀ f ∈ pre, f.isFatalErr = false) →
      (∀ q ∈ dataPayloads pre, cb q = StreamOutcome.cont) →
      consume cb (pre ++ rest) =
        ⟨dataPayloads pre ++ (consume cb rest).delivered,
         (consume cb rest).sourceClosed, (consume cb rest).terminal⟩ := by
  intro pre
  induction pre with
  | nil => intro rest _ _; rfl
  | cons f fs ih =>
    intro rest hnf hc
    have hnf2 : ∀ g ∈ fs, g.isFatalErr = false :=
      fun g hg => hnf g (List.mem_cons_of_mem f hg)
    cases f with
    | keepAlive =>
      rw [dataPayloads_cons_keepAlive] at hc
      rw [List.cons_append, dataPayloads_cons_keepAlive]
      simpa [consume] using ih rest hnf2 hc
    | errorMessage fatal cause =>
      cases fatal with
      | true =>
        have := hnf _ (List.mem_cons_self _ fs)
        simp [Frame.isFatalErr] at this
      | false =>
        rw [dataPayloads_cons_error] at hc
        rw [List.cons_append, dataPayloads_cons_error]
        simpa [consume] using ih rest hnf2 hc
    | dataMessage q =>
      have hq : cb q = StreamOutcome.cont := by
        apply hc
        rw [dataPayloads_cons_data]
        exact List.mem_cons_self _ _
      have hc2 : ∀ r ∈ dataPayloads fs, cb r = StreamOutcome.cont := by
        intro r hr
        apply hc
        rw [dataPayloads_cons_data]
        exact List.mem_cons_of_mem _ hr
      rw [List.cons_append, dataPayloads_cons_data]
      simp [consume, hq, ih rest hnf2 hc2]

/-- C7: For every frame sequence consisting only of KeepAlive frames followed
by end-of-stream, the callback is invoked zero times (no payload delivered)
and `asStream` returns success with the clean end-of-stream terminal state:
KeepAlive frames are never mistaken for stream end and never delivered to
the callback, and the source is closed. -/
theorem keepalive_only_no_callback {ε α : Type} (cb : α → StreamOutcome ε)
    (frames : List (Frame α)) (h : ∀ f ∈ frames, f = Frame.keepAlive) :
    consume cb frames = ⟨[], true, Terminal.closed⟩ ∧
    (consume cb frames).streamError = none ∧
    (consume cb frames).delivered = [] := by
  have hrun : consume cb frames = ⟨[], true, Terminal.closed⟩ := by
    induction frames with
    | nil => rfl
    | cons f rest ih =>
      have hf : f = Frame.keepAlive := h f (List.mem_cons_self _ rest)
      subst hf
      have := ih fun g hg => h g (List.mem_cons_of_mem _ hg)
      simpa [consume] using this
  refine ⟨hrun, ?_, ?_⟩ <;> simp [hrun, Run.streamError]

/-- Witness for C7 at a concrete frame sequence of two KeepAlive frames. -/
theorem keepalive_only_no_callback_witness :
    (∀ f ∈ [Frame.keepAlive, Frame.keepAlive], f = (Frame.keepAlive : Frame Nat)) ∧
    consume (fun _ : Nat => StreamOutcome.cont (ε := Nat)) [Frame.keepAlive, Frame.keepAlive] =
      ⟨[], true, Terminal.closed⟩ :=
  ⟨by decide,
   (keepalive_only_no_callback (fun _ : Nat => StreamOutcome.cont (ε := Nat))
     [Frame.keepAlive, Frame.keepAlive] (by decide)).1⟩

/-- C1: For every frame sequence in which the callback returns the
StopRequested sentinel on the Nth DataMessage — that is, the frames before
that message contain exactly N-1 data messages, no fatal provider error
(otherwise the run could never reach it), and the callback continues on each
of those N-1 payloads — the streaming invocation invokes the callback
exactly N times, delivers those N messages in arrival order (the first N
data payloads of the stream), never delivers any later frame (the frames
after the stop point, fatal error frames included, are unrestricted), closes
the byte source, and `asStream` returns success (`streamError` is `none`),
terminating in the Stopped state. -/
theorem stream_stop_sentinel_delivers_exactly_n {ε α : Type} (cb : α → StreamOutcome ε)
    (frames pre post : List (Frame α)) (p : α) (n : Nat)
    (hsplit : frames = pre ++ Frame.dataMessage p :: post)
    (hn : 0 < n) (hlen : (dataPayloads pre).length = n - 1)
    (hnofatal : ∀ f ∈ pre, f.isFatalErr = false)
    (hcont : ∀ q ∈ dataPayloads pre, cb q = StreamOutcome.cont)
    (hstop : cb p = StreamOutcome.stopRequested) :
    consume cb frames = ⟨dataPayloads pre ++ [p], true, Terminal.stopped⟩ ∧
    (consume cb frames).delivered = (dataPayloads frames).take n ∧
    (consume cb frames).delivered.length = n ∧
    (consume cb frames).streamError = none := by
  subst hsplit
  have hstep : consume cb (Frame.dataMessage p :: post) = ⟨[p], true, Terminal.stopped⟩ := by
    simp [consume, hstop]
  have hrun : consume cb (pre ++ Frame.dataMessage p :: post) =
      ⟨dataPayloads pre ++ [p], true, Terminal.stopped⟩ := by
    rw [consume_append_cont cb pre (Frame.dataMessage p :: post) hnofatal hcont, hstep]
  obtain ⟨m, rfl⟩ : ∃ m, n = m + 1 := ⟨n - 1, (Nat.succ_pred_eq_of_pos hn).symm⟩
  simp only [Nat.add_sub_cancel] at hlen
  refine ⟨hrun, ?_, ?_, ?_⟩
  · rw [hrun]
    have hdp : dataPayloads (pre ++ Frame.dataMessage p :: post) =
        dataPayloads pre ++ p :: dataPayloads post := by
      simp [dataPayloads, List.filterMap_append, List.filterMap_cons]
    rw [hdp, ← hlen, List.take_append]
    simp
  · rw [hrun]
    simp [hlen]
  · rw [hrun]
    rfl

/-- Callback used to witness C1 and C6 concretely: continue on payload 1,
stop on payload 2, fail with error 9 on anything else. -/
def demoCb : Nat → StreamOutcome Nat := fun p =>
  if p = 1 then .cont else if p = 2 then .stopRequested else .failed 9

/-- Frame sequence used to witness C1: data 1, keepalive, data 2, then a
fatal provider error frame after the stop point. -/
def demoFrames : List (Frame Nat) :=
  [Frame.dataMessage 1, Frame.keepAlive, Frame.dataMessage 2, Frame.errorMessage true 7]

/-- Witness for C1: on `demoFrames` with `demoCb` stopping at the 2nd data
message, exactly the first two payloads are delivered and the run stops
successfully, even though a fatal error frame follows the stop point. -/
theorem stream_stop_sentinel_witness :
    consume demoCb demoFrames = ⟨[1, 2], true, Terminal.stopped⟩ :=
  (stream_stop_sentinel_delivers_exactly_n demoCb demoFrames
    [Frame.dataMessage 1, Frame.keepAlive] [Frame.errorMessage true 7] 2 2
    (by decide) (by decide) (by decide) (by decide) (by decide) (by decide)).1

/-- C6: For every frame sequence in which the callback returns an error `e`
on the Nth DataMessage — the frames before that message contain exactly N-1
data messages, no fatal provider error, and the callback continues on each
of those N-1 payloads; the frames after the failure point are
unrestricted — exactly N callback invocations occur, in arrival order, and
`asStream` returns that same error value unchanged (as the callback-failure
case of the invocation's error), with the byte source closed. -/
theorem stream_callback_error_propagates {ε α : Type} (cb : α → StreamOutcome ε)
    (frames pre post : List (Frame α)) (p : α) (n : Nat) (e : ε)
    (hsplit : frames = pre ++ Frame.dataMessage p :: post)
    (hn : 0 < n) (hlen : (dataPayloads pre).length = n - 1)
    (hnofatal : ∀ f ∈ pre, f.isFatalErr = false)
    (hcont : ∀ q ∈ dataPayloads pre, cb q = StreamOutcome.cont)
    (hfail : cb p = StreamOutcome.failed e) :
    consume cb frames =
      ⟨dataPayloads pre ++ [p], true, Terminal.failed (.callbackFailed e)⟩ ∧
    (consume cb frames).delivered = (dataPayloads frames).take n ∧
    (consume cb frames).delivered.length = n ∧
    (consume cb frames).streamError = some (.callbackFailed e) := by
  subst hsplit
  have hstep : consume cb (Frame.dataMessage p :: post) =
      ⟨[p], true, Terminal.failed (.callbackFailed e)⟩ := by
    simp [consume, hfail]
  have hrun : consume cb (pre ++ Frame.dataMessage p :: post) =
      ⟨dataPayloads pre ++ [p], true, Terminal.failed (.callbackFailed e)⟩ := by
    rw [consume_append_cont cb pre (Frame.dataMessage p :: post) hnofatal hcont, hstep]
  obtain ⟨m, rfl⟩ : ∃ m, n = m + 1 := ⟨n - 1, (Nat.succ_pred_eq_of_pos hn).symm⟩
  simp only [Nat.add_sub_cancel] at hlen
  refine ⟨hrun, ?_, ?_, ?_⟩
  · rw [hrun]
    have hdp : dataPayloads (pre ++ Frame.dataMessage p :: post) =
        dataPayloads pre ++ p :: dataPayloads post := by
      simp [dataPayloads, List.filterMap_append, List.filterMap_cons]
    rw [hdp, ← hlen, List.take_append]
    simp
  · rw [hrun]
    simp [hlen]
  · rw [hrun]
    rfl

/-- Frame sequence used to witness C6: data 1, keepalive, data 5, then a
fatal provider error frame after the failure point. -/
def demoFramesFail : List (Frame Nat) :=
  [Frame.dataMessage 1, Frame.keepAlive, Frame.dataMessage 5, Frame.errorMessage true 7]

/-- Witness for C6: on `demoFramesFail` with `demoCb` failing (error 9) at the
2nd data message, both payloads are delivered and the error is returned
unchanged, even though a fatal error frame follows the failure point. -/
theorem stream_callback_error_witness :
    consume demoCb demoFramesFail =
      ⟨[1, 5], true, Terminal.failed (.callbackFailed 9)⟩ :=
  (stream_callback_error_propagates demoCb demoFramesFail
    [Frame.dataMessage 1, Frame.keepAlive] [Frame.errorMessage true 7] 5 2 9
    (by decide) (by decide) (by decide) (by decide) (by decide) (by decide)).1

/-- A raw frame payload: one newline-delimited line of the response body. -/
abbrev RawLine := List Char

/-- Modelled from the spec: MessageFramer's classification of one delimited
line (§4.1): a line longer than the configured maximum size is a fatal
framing error; a line consisting solely of whitespace is KeepAlive; a line
whose payload contains the provider's error indicator (externally-defined
predicate `isErrorPayload`, with fatality decided by `isFatalError`) is an
ErrorMessage; every other line is a DataMessage. -/
def nextFrame (maxSize : Nat) (isErrorPayload : RawLine → Bool)
    (isFatalError : RawLine → Bool) (line : RawLine) :
    Except FramingError (Frame RawLine) :=
  if maxSize < line.length then .error ⟨line.length, maxSize⟩
  else if line.all Char.isWhitespace then .ok .keepAlive
  else if isErrorPayload line then .ok (.errorMessage (isFatalError line) line)
  else .ok (.dataMessage line)

/-- Modelled from the spec: the full streaming invocation over the raw byte
source split into lines — MessageFramer (§4.1) composed with the
StreamConsumer loop (§4.2).  A framing error aborts the invocation (closing
the source) before the offending frame reaches the callback. -/
def runStream {ε : Type} (maxSize : Nat) (isErrorPayload isFatalError : RawLine → Bool)
    (cb : RawLine → StreamOutcome ε) : List RawLine → Run ε RawLine
  | [] => ⟨[], true, .closed⟩
  | line :: rest =>
    match nextFrame maxSize isErrorPayload isFatalError line with
    | .error fe => ⟨[], true, .failed (.framing fe)⟩
    | .ok .keepAlive => runStream maxSize isErrorPayload isFatalError cb rest
    | .ok (.errorMessage true cause) => ⟨[], true, .failed (.provider cause)⟩
    | .ok (.errorMessage false _) => runStream maxSize isErrorPayload isFatalError cb rest
    | .ok (.dataMessage p) =>
      match cb p with
      | .cont =>
        let r := runStream maxSize isErrorPayload isFatalError cb rest
        ⟨p :: r.delivered, r.sourceClosed, r.terminal⟩
      | .stopRequested => ⟨[p], true, .stopped⟩
      | .failed e => ⟨[p], true, .failed (.callbackFailed e)⟩

theorem runStream_cons_oversized {ε : Type} (maxSize : Nat)
    (isErr isFatal : RawLine → Bool) (cb : RawLine → StreamOutcome ε)
    (line : RawLine) (rest : List RawLine) (h1 : maxSize < line.length) :
    runStream maxSize isErr isFatal cb (line :: rest) =
      ⟨[], true, Terminal.failed (.framing ⟨line.length, maxSize⟩)⟩ := by
  rw [runStream, nextFrame, if_pos h1]

theorem runStream_cons_keepAlive {ε : Type} (maxSize : Nat)
    (isErr isFatal : RawLine → Bool) (cb : RawLine → StreamOutcome ε)
    (line : RawLine) (rest : List RawLine)
    (h1 : ¬ maxSize < line.length) (h2 : line.all Char.isWhitespace = true) :
    runStream maxSize isErr isFatal cb (line :: rest) =
      runStream maxSize isErr isFatal cb rest := by
  rw [runStream, nextFrame, if_neg h1, if_pos h2]

theorem runStream_cons_fatalErr {ε : Type} (maxSize : Nat)
    (isErr isFatal : RawLine → Bool) (cb : RawLine → StreamOutcome ε)
    (line : RawLine) (rest : List RawLine)
    (h1 : ¬ maxSize < line.length) (h2 : ¬ line.all Char.isWhitespace = true)
    (h3 : isErr line = true) (hf : isFatal line = true) :
    runStream maxSize isErr isFatal cb (line :: rest) =
      ⟨[], true, Terminal.failed (.provider line)⟩ := by
  rw [runStream, nextFrame, if_neg h1, if_neg h2, if_pos h3, hf]

theorem runStream_cons_advisoryErr {ε : Type} (maxSize : Nat)
    (isErr isFatal : RawLine → Bool) (cb : RawLine → StreamOutcome ε)
    (line : RawLine) (rest : List RawLine)
    (h1 : ¬ maxSize < line.length) (h2 : ¬ line.all Char.isWhitespace = true)
    (h3 : isErr line = true) (hf : isFatal line = false) :
    runStream maxSize isErr isFatal cb (line :: rest) =
      runStream maxSize isErr isFatal cb rest := by
  rw [runStream, nextFrame, if_neg h1, if_neg h2, if_pos h3, hf]

theorem runStream_cons_data {ε : Type} (maxSize : Nat)
    (isErr isFatal : RawLine → Bool) (cb : RawLine → StreamOutcome ε)
    (line : RawLine) (rest : List RawLine)
    (h1 : ¬ maxSize < line.length) (h2 : ¬ line.all Char.isWhitespace = true)
    (h3 : ¬ isErr line = true) :
    runStream maxSize isErr isFatal cb (line :: rest) =
      (match cb line with
       | .cont =>
         ⟨line :: (runStream maxSize isErr isFatal cb rest).delivered,
          (runStream maxSize isErr isFatal cb rest).sourceClosed,
          (runStream maxSize isErr isFatal cb rest).terminal⟩
       | .stopRequested => ⟨[line], true, Terminal.stopped⟩
       | .failed e => ⟨[line], true, Terminal.failed (.callbackFailed e)⟩) := by
  rw [runStream, nextFrame, if_neg h1, if_neg h2, if_neg h3]

theorem runStream_delivered_le {ε : Type} (maxSize : Nat)
    (isErr isFatal : RawLine → Bool) (cb : RawLine → StreamOutcome ε) :
    ∀ lines : List RawLine,
      ∀ p ∈ (runStream maxSize isErr isFatal cb lines).delivered, p.length ≤ maxSize := by
  intro lines
  induction lines with
  | nil => intro p hp; simp [runStream] at hp
  | cons line rest ih =>
    intro p hp
    by_cases h1 : maxSize < line.length
    · rw [runStream_cons_oversized maxSize isErr isFatal cb line rest h1] at hp
      simp at hp
    · by_cases h2 : line.all Char.isWhitespace = true
      · rw [runStream_cons_keepAlive maxSize isErr isFatal cb line rest h1 h2] at hp
        exact ih p hp
      · by_cases h3 : isErr line = true
        · cases hf : isFatal line with
          | true =>
            rw [runStream_cons_fatalErr maxSize isErr isFatal cb line rest h1 h2 h3 hf] at hp
            simp at hp
          | false =>
            rw [runStream_cons_advisoryErr maxSize isErr isFatal cb line rest h1 h2 h3 hf] at hp
            exact ih p hp
        · rw [runStream_cons_data maxSize isErr isFatal cb line rest h1 h2 h3] at hp
          cases hcb : cb line with
          | cont =>
            rw [hcb] at hp
            simp only [List.mem_cons] at hp
            rcases hp with rfl | hp
            · omega
            · exact ih p hp
          | stopRequested =>
            rw [hcb] at hp
            simp only [List.mem_singleton] at hp
            subst hp; omega
          | failed e =>
            rw [hcb] at hp
            simp only [List.mem_singleton] at hp
            subst hp; omega

theorem runStream_append_closed {ε : Type} (maxSize : Nat)
    (isErr isFatal : RawLine → Bool) (cb : RawLine → StreamOutcome ε) :
    ∀ pre rest : List RawLine,
      (runStream maxSize isErr isFatal cb pre).terminal = Terminal.closed →
      runStream maxSize isErr isFatal cb (pre ++ rest) =
        ⟨(runStream maxSize isErr isFatal cb pre).delivered ++
           (runStream maxSize isErr isFatal cb rest).delivered,
         (runStream maxSize isErr isFatal cb rest).sourceClosed,
         (runStream maxSize isErr isFatal cb rest).terminal⟩ := by
  intro pre
  induction pre with
  | nil => intro rest _; simp [runStream]
  | cons line ls ih =>
    intro rest h
    rw [List.cons_append]
    by_cases h1 : maxSize < line.length
    · rw [runStream_cons_oversized maxSize isErr isFatal cb line ls h1] at h
      simp at h
    · by_cases h2 : line.all Char.isWhitespace = true
      · rw [runStream_cons_keepAlive maxSize isErr isFatal cb line ls h1 h2] at h
        rw [runStream_cons_keepAlive maxSize isErr isFatal cb line (ls ++ rest) h1 h2,
          runStream_cons_keepAlive maxSize isErr isFatal cb line ls h1 h2]
        exact ih rest h
      · by_cases h3 : isErr line = true
        · cases hf : isFatal line with
          | true =>
            rw [runStream_cons_fatalErr maxSize isErr isFatal cb line ls h1 h2 h3 hf] at h
            simp at h
          | false =>
            rw [runStream_cons_advisoryErr maxSize isErr isFatal cb line ls h1 h2 h3 hf] at h
            rw [runStream_cons_advisoryErr maxSize isErr isFatal cb line (ls ++ rest) h1 h2 h3 hf,
              runStream_cons_advisoryErr maxSize isErr isFatal cb line ls h1 h2 h3 hf]
            exact ih rest h
        · rw [runStream_cons_data maxSize isErr isFatal cb line ls h1 h2 h3] at h
          rw [runStream_cons_data maxSize isErr isFatal cb line (ls ++ rest) h1 h2 h3,
            runStream_cons_data maxSize isErr isFatal cb line ls h1 h2 h3]
          cases hcb : cb line with
          | cont =>
            rw [hcb] at h
            simp only at h
            simp [ih rest h]
          | stopRequested =>
            rw [hcb] at h
            simp at h
          | failed e =>
            rw [hcb] at h
            simp at h

/-- C8: For every input stream that reaches a frame exceeding the configured
maximum size (formally: the prefix before it runs to clean end-of-stream),
the invocation aborts with a framing error before delivering that frame to
the callback — delivery stops at the prefix's deliveries, the oversized
payload is never delivered — the byte source is closed, and on any input
every delivered payload respects the configured bound. -/
theorem oversized_frame_aborts {ε : Type} (maxSize : Nat)
    (isErr isFatal : RawLine → Bool) (cb : RawLine → StreamOutcome ε)
    (pre post : List RawLine) (big : RawLine)
    (hbig : maxSize < big.length)
    (hpre : (runStream maxSize isErr isFatal cb pre).terminal = Terminal.closed) :
    runStream maxSize isErr isFatal cb (pre ++ big :: post) =
      ⟨(runStream maxSize isErr isFatal cb pre).delivered, true,
       Terminal.failed (.framing ⟨big.length, maxSize⟩)⟩ ∧
    big ∉ (runStream maxSize isErr isFatal cb (pre ++ big :: post)).delivered ∧
    (∀ lines : List RawLine,
      ∀ p ∈ (runStream maxSize isErr isFatal cb lines).delivered, p.length ≤ maxSize) := by
  have happ := runStream_append_closed maxSize isErr isFatal cb pre (big :: post) hpre
  have hhead : runStream maxSize isErr isFatal cb (big :: post) =
      ⟨[], true, Terminal.failed (.framing ⟨big.length, maxSize⟩)⟩ := by
    rw [runStream]
    simp [nextFrame, hbig]
  have hrun : runStream maxSize isErr isFatal cb (pre ++ big :: post) =
      ⟨(runStream maxSize isErr isFatal cb pre).delivered, true,
       Terminal.failed (.framing ⟨big.length, maxSize⟩)⟩ := by
    rw [happ, hhead]
    simp
  refine ⟨hrun, ?_, runStream_delivered_le maxSize isErr isFatal cb⟩
  rw [hrun]
  intro hmem
  have := runStream_delivered_le maxSize isErr isFatal cb pre big hmem
  omega

/-- Witness for C8: with bound 3, a well-formed one-data-line prefix, and an
oversized 4-character line, the run aborts with the framing error after
delivering only the prefix. -/
theorem oversized_frame_aborts_witness :
    runStream 3 (fun _ => false) (fun _ => false)
        (fun _ => (StreamOutcome.cont : StreamOutcome Nat))
        ([['a']] ++ ['x', 'x', 'x', 'x'] :: []) =
      ⟨(runStream 3 (fun _ => false) (fun _ => false)
          (fun _ => (StreamOutcome.cont : StreamOutcome Nat)) [['a']]).delivered, true,
       Terminal.failed (.framing ⟨4, 3⟩)⟩ :=
  (oversized_frame_aborts 3 (fun _ => false) (fun _ => false)
    (fun _ => (StreamOutcome.cont : StreamOutcome Nat))
    [['a']] [] ['x', 'x', 'x', 'x'] (by decide) (by decide)).1

end TwitterStream

namespace TwitterPage

/-- Modelled from the spec: the PaginationCursor's single mutable field
(§3, §4.3), the state behind `internal/ocall`'s `HasMorePages` /
`ResetPageToken` helpers (absent from the visible source).  `none` means the
cursor holds no token (fresh, or after reset); `some t` with `t ≠ ""` is a
server-supplied continuation token; `some ""` is the cleared-and-exhausted
state recorded after a reply that declared no continuation token. -/
abbrev Cursor := Option String

/-- The cursor of a freshly-constructed paginated query value: no token. -/
def freshCursor : Cursor := none

/-- Modelled from the spec: `hasMorePages()` (§4.3) — true if the cursor
holds no token or a non-empty token; false only in the recorded-exhaustion
state. -/
def hasMorePages : Cursor → Bool
  | none => true
  | some t => !(t == "")

/-- Modelled from the spec: `resetPageToken()` (§4.3) — clears the stored
token unconditionally, in every state; never fails. -/
def resetPageToken (_ : Cursor) : Cursor := none

/-- Modelled from the spec: the cursor mutation performed by a successful
invocation (§4.3) — if the decoded reply carries a continuation token, store
it; if absent, clear the token and mark exhaustion. -/
def storeToken : Option String → Cursor
  | some t => some t
  | none => some ""

/-- One decoded reply of a paginated REST call: its page payload and its
optional continuation token. -/
structure ReplyData where
  page : String
  next : Option String
deriving DecidableEq

/-- Modelled from the spec: repeated `invoke` calls on one query value
against a fixed reply script (§4.3, §4.4).  Each step records the cursor
value threaded into that call's parameters together with the page fetched,
then stores the reply's continuation token into the cursor for the next
call.  Returns the invocation log and the final cursor. -/
def runPages (c : Cursor) : List ReplyData → List (Cursor × String) × Cursor
  | [] => ([], c)
  | r :: rest =>
    let out := runPages (storeToken r.next) rest
    ((c, r.page) :: out.1, out.2)

/-- C2: `hasMorePages()` returns true for a freshly-constructed query value;
it returns true exactly when the cursor holds no token or a non-empty
continuation token, returns false exactly in the recorded-exhaustion state,
and an invocation's mutation puts the cursor in that state exactly when the
reply carried no continuation token (server-reported exhaustion). -/
theorem hasMorePages_true_iff :
    hasMorePages freshCursor = true ∧
    (∀ c : Cursor,
      (hasMorePages c = true ↔ c = none ∨ ∃ t, c = some t ∧ t ≠ "") ∧
      (hasMorePages c = false ↔ c = some "")) ∧
    hasMorePages (storeToken none) = false ∧
    (∀ t : String, t ≠ "" → hasMorePages (storeToken (some t)) = true) := by
  refine ⟨rfl, ?_, rfl, ?_⟩
  · intro c
    cases c with
    | none => simp [hasMorePages]
    | some t =>
      constructor
      · simp only [hasMorePages, Bool.not_eq_true']
        constructor
        · intro h
          exact Or.inr ⟨t, rfl, by simpa using h⟩
        · rintro (h | ⟨u, hu, hne⟩)
          · exact absurd h (by simp)
          · simp only [Option.some.injEq] at hu
            subst hu
            simpa using hne
      · simp [hasMorePages]
  · intro t ht
    simp [storeToken, hasMorePages, ht]

/-- Witness for C2 at concrete inputs: a non-empty stored token keeps
`hasMorePages` true. -/
theorem hasMorePages_true_iff_witness :
    hasMorePages (storeToken (some "tok")) = true :=
  hasMorePages_true_iff.2.2.2 "tok" (by decide)

/-- C5: `resetPageToken()` clears the stored token unconditionally in every
cursor state, and is idempotent: two resets in a row leave exactly the state
of one reset — the no-token state of a fresh query, with `hasMorePages()`
true, so the next invocation fetches the first page. -/
theorem resetPageToken_idempotent :
    ∀ c : Cursor,
      resetPageToken (resetPageToken c) = resetPageToken c ∧
      resetPageToken c = freshCursor ∧
      hasMorePages (resetPageToken c) = true :=
  fun _ => ⟨rfl, rfl, rfl⟩

theorem runPages_pages (s : List ReplyData) :
    ∀ c : Cursor, ((runPages c s).1).map Prod.snd = s.map ReplyData.page := by
  induction s with
  | nil => intro c; rfl
  | cons r rest ih =>
    intro c
    simp [runPages, ih (storeToken r.next)]

theorem runPages_cursors (s : List ReplyData) :
    ∀ c : Cursor, s ≠ [] →
      ((runPages c s).1).map Prod.fst =
        c :: s.dropLast.map (fun r => storeToken r.next) := by
  induction s with
  | nil => intro c h; exact absurd rfl h
  | cons r rest ih =>
    intro c _
    cases rest with
    | nil => simp [runPages]
    | cons r2 rest2 =>
      have hih := ih (storeToken r.next) (by simp)
      rw [List.dropLast_cons₂]
      simp only [runPages, List.map_cons, List.cons.injEq, true_and] at hih ⊢
      exact hih

theorem runPages_take_final (s : List ReplyData) :
    ∀ (j : Nat) (hj : j < s.length) (c : Cursor),
      (runPages c (s.take (j + 1))).2 = storeToken (s.get ⟨j, hj⟩).next := by
  induction s with
  | nil => intro j hj; simp at hj
  | cons r rest ih =>
    intro j hj c
    cases j with
    | zero => rfl
    | succ i =>
      rw [List.take_succ_cons]
      simp only [runPages]
      exact ih i (by simpa using hj) (storeToken r.next)

/-- C3: For every reply script in which each reply carries a non-empty
continuation token except the last (which carries none), repeated `invoke`
calls on one query value fetch the pages in order, thread each reply's
stored token into the next call's cursor, and `hasMorePages()` is true after
every proper prefix of the script, becomes false exactly after the final
tokenless reply is processed, and turns true again once `resetPageToken()`
is called. -/
theorem pagination_round_trip (script : List ReplyData)
    (hne : script ≠ [])
    (hmid : ∀ r ∈ script.dropLast, ∃ t, r.next = some t ∧ t ≠ "")
    (hlast : (script.getLast hne).next = none) :
    ((runPages freshCursor script).1).map Prod.snd = script.map ReplyData.page ∧
    ((runPages freshCursor script).1).map Prod.fst =
      freshCursor :: script.dropLast.map (fun r => storeToken r.next) ∧
    hasMorePages (runPages freshCursor script).2 = false ∧
    (∀ j, j < script.length →
      hasMorePages (runPages freshCursor (script.take j)).2 = true) ∧
    hasMorePages (resetPageToken (runPages freshCursor script).2) = true := by
  have hlen : 0 < script.length := List.length_pos.mpr hne
  refine ⟨runPages_pages script freshCursor, runPages_cursors script freshCursor hne, ?_, ?_, rfl⟩
  · have htake : script.take (script.length - 1 + 1) = script := by
      have : script.length - 1 + 1 = script.length := by omega
      rw [this, List.take_length]
    have hfin := runPages_take_final script (script.length - 1) (by omega) freshCursor
    rw [htake] at hfin
    rw [hfin]
    have hget : (script.get ⟨script.length - 1, by omega⟩).next = none := by
      rw [← hlast, List.getLast_eq_getElem]
      rfl
    rw [hget]
    rfl
  · intro j hj
    cases j with
    | zero => rfl
    | succ i =>
      have hi : i < script.length := by omega
      rw [runPages_take_final script i hi freshCursor]
      have hmem : script.get ⟨i, hi⟩ ∈ script.dropLast := by
        have hidl : i < script.dropLast.length := by
          rw [List.length_dropLast]; omega
        have : script.dropLast.get ⟨i, hidl⟩ = script.get ⟨i, hi⟩ := by
          simp [List.getElem_dropLast]
        rw [← this]
        exact List.get_mem _ _ hidl
      obtain ⟨t, ht, htne⟩ := hmid _ hmem
      rw [ht]
      simp [storeToken, hasMorePages, htne]

/-- Reply script used to witness C3: two pages, the first with a
continuation token, the second without. -/
def demoScript : List ReplyData := [⟨"p1", some "t1"⟩, ⟨"p2", none⟩]

/-- Witness for C3: on `demoScript`, pagination is exhausted after the final
tokenless reply. -/
theorem pagination_round_trip_witness :
    hasMorePages (runPages freshCursor demoScript).2 = false :=
  (pagination_round_trip demoScript (by decide)
    (by
      intro r hr
      have hdl : demoScript.dropLast = [⟨"p1", some "t1"⟩] := rfl
      rw [hdl] at hr
      have hre : r = ⟨"p1", some "t1"⟩ := by simpa using hr
      subst hre
      exact ⟨"t1", rfl, by decide⟩)
    (by decide)).2.2.1

end TwitterPage

namespace JHttp

/-- Raw response-body bytes (Go `[]byte`). -/
abbrev Bytes := List Nat

/-- Model of the external `jhttp.Params` type (Go `map[string][]string`) as
an association list. -/
abbrev Params := List (String × List String)

/-- `jhttp.Params.Set`: bind the key to a single-element value list,
replacing any existing binding. -/
def Params.set (ps : Params) (key value : String) : Params :=
  if ps.any fun kv => kv.1 == key then
    ps.map fun kv => if kv.1 == key then (kv.1, [value]) else kv
  else ps ++ [(key, [value])]

/-- `jhttp.Params.Add`: append values to the key's existing value list, or
create the binding. -/
def Params.add (ps : Params) (key : String) (values : List String) : Params :=
  if ps.any fun kv => kv.1 == key then
    ps.map fun kv => if kv.1 == key then (kv.1, kv.2 ++ values) else kv
  else ps ++ [(key, values)]

/-- Model of the external `jhttp.Request`: endpoint method path, HTTP verb,
and query parameters.  `bodyFromParams` marks that `SetBodyToParams` was
called (the external library then encodes the parameters into the request
body); the encoding itself is outside this repository. -/
structure Request where
  method : String
  httpMethod : String := ""
  params : Params := []
  bodyFromParams : Bool := false
deriving DecidableEq

/-- `jhttp.Request.SetBodyToParams` (external), abstracted as a marker. -/
def Request.setBodyToParams (r : Request) : Request := { r with bodyFromParams := true }

/-- A Go `error` value as returned by the `Invoke` methods: either the
transport error from `cli.CallRaw` propagated unchanged (`τ`), or a
structured `&jhttp.Error{Message: ..., Err: ...}` wrapping a JSON decode
error (`δ`). -/
inductive GoError (τ δ : Type) where
  | transport (e : τ)
  | jhttpError (message : String) (wrapped : δ)
deriving DecidableEq

end JHttp

namespace TwitterTypes

/-- Model of `types.TweetFields`.  The embedded source reads and writes only
its `Entities` field; the remaining generated option fields do not influence
any claim and are omitted. -/
structure TweetFields where
  entities : Bool := false
deriving DecidableEq

/-- Model of `types.UserFields`, which the embedded source never inspects. -/
structure UserFields
deriving DecidableEq

/-- `types.VerifyCredentials` (src/unnamed/part_001). -/
structure VerifyCredentials where
  includeEntities : Bool := false
  skipStatus : Bool := false
  includeEmail : Bool := false
deriving DecidableEq

end TwitterTypes

namespace OAccount

/-- `oaccount.Query` (src/unnamed/part_000): a request plus response-field
options. -/
structure Query where
  request : JHttp.Request
  opts : TwitterTypes.UserFields := {}
deriving DecidableEq

/-- `oaccount.Settings` (src/unnamed/part_000 lines 19–28): builds the
account-settings query with an empty parameter map.  The `text` argument is
received but never used. -/
def Settings (text : String) : Query :=
  { request := { method := "1.1/account/settings.json", params := [] } }

/-- C9: The `Settings` constructor's result does not depend on its text
argument: for any two strings the constructed query values are equal, with
method "1.1/account/settings.json" and an empty parameter map — the text is
never placed into the request. -/
theorem settings_ignores_text (s1 s2 : String) :
    Settings s1 = Settings s2 ∧
    (Settings s1).request.method = "1.1/account/settings.json" ∧
    (Settings s1).request.params = [] :=
  ⟨rfl, rfl, rfl⟩

/-- `oaccount.Query.Invoke` (src/oaccount/query.go lines 22–32), embedded
with the external transport call `cli.CallRaw` abstracted by its result
`callRaw` and `json.Unmarshal` into `*VerifyCredentialsResult` abstracted by
the decoder `unmarshal` (the decoded value is an optional pointer `ρ`).
Transport failure returns that error with no reply; decode failure returns a
`jhttp.Error` with message "decoding response body" wrapping the decode
error, with no reply. -/
def Invoke {τ δ ρ : Type} (callRaw : Except τ JHttp.Bytes)
    (unmarshal : JHttp.Bytes → Except δ (Option ρ)) :
    Except (JHttp.GoError τ δ) (Option ρ) :=
  match callRaw with
  | .error e => .error (.transport e)
  | .ok data =>
    match unmarshal data with
    | .error err => .error (.jhttpError "decoding response body" err)
    | .ok rsp => .ok rsp

end OAccount

namespace OStatus

/-- `ostatus.Query` (src/ostatus/query.go): a request plus tweet-field
options. -/
structure Query where
  request : JHttp.Request
  opts : TwitterTypes.TweetFields := {}
deriving DecidableEq

/-- Replace one query parameter (`q.Request.Params.Set`). -/
def Query.setParam (q : Query) (k v : String) : Query :=
  { q with request := { q.request with params := JHttp.Params.set q.request.params k v } }

/-- `ostatus.CreateOpts` (src/ostatus/query.go lines 126–139); a `nil`
pointer is modelled as `none` at the use sites. -/
structure CreateOpts where
  inReplyTo : String := ""
  autoPopulateReply : Bool := false
  autoExcludeMentions : List String := []
  optional : TwitterTypes.TweetFields := {}
deriving DecidableEq

/-- `(*CreateOpts).addQueryParams` (src/ostatus/query.go lines 141–156):
always sets `tweet_mode=extended`, then — only when the receiver is
non-nil — the reply target, auto-populate flags, and the optional fields;
finally moves the parameters to the request body. -/
def CreateOpts.addQueryParams (o : Option CreateOpts) (q : Query) : Query :=
  let q1 := Query.setParam q "tweet_mode" "extended"
  let q2 :=
    match o with
    | none => q1
    | some o =>
      let qa :=
        if o.inReplyTo ≠ "" then Query.setParam q1 "in_reply_to_status_id" o.inReplyTo else q1
      let qb :=
        if o.autoPopulateReply then
          let qc := Query.setParam qa "auto_populate_reply_metadata" "true"
          if o.autoExcludeMentions.length ≠ 0 then
            { qc with request := { qc.request with
                params := JHttp.Params.add qc.request.params "exclude_reply_user_ids"
                  o.autoExcludeMentions } }
          else qc
        else qa
      { qb with opts := o.optional }
  { q2 with request := JHttp.Request.setBodyToParams q2.request }

/-- `ostatus.Create` (src/ostatus/query.go lines 22–35). -/
def Create (text : String) (opts : Option CreateOpts) : Query :=
  CreateOpts.addQueryParams opts
    { request :=
        { method := "1.1/statuses/update.json", httpMethod := "POST",
          params := [("status", [text]), ("trim_user", ["true"])] } }

/-- `ostatus.Options` (src/ostatus/query.go lines 160–162). -/
structure Options where
  optional : TwitterTypes.TweetFields := {}
deriving DecidableEq

/-- `(*Options).addQueryParams` (src/ostatus/query.go lines 164–168): copies
the optional fields only when the receiver is non-nil. -/
def Options.addQueryParams (o : Option Options) (q : Query) : Query :=
  match o with
  | none => q
  | some o => { q with opts := o.optional }

/-- `ostatus.modQuery` (src/ostatus/query.go lines 37–47). -/
def modQuery (path id : String) (opts : Option Options) : Query :=
  Options.addQueryParams opts
    { request :=
        { method := path ++ "/" ++ id ++ ".json", httpMethod := "POST",
          params := [("trim_user", ["true"])] } }

/-- `ostatus.Delete` (src/ostatus/query.go lines 53–55). -/
def Delete (id : String) (opts : Option Options) : Query :=
  modQuery "1.1/statuses/destroy" id opts

/-- `ostatus.Retweet` (src/ostatus/query.go lines 61–63). -/
def Retweet (id : String) (opts : Option Options) : Query :=
  modQuery "1.1/statuses/retweet" id opts

/-- `ostatus.Unretweet` (src/ostatus/query.go lines 69–71). -/
def Unretweet (id : String) (opts : Option Options) : Query :=
  modQuery "1.1/statuses/unretweet" id opts

/-- Go `strconv.FormatBool`. -/
def formatBool (b : Bool) : String := if b then "true" else "false"

/-- `ostatus.likeQuery` (src/ostatus/query.go lines 73–84): note the
`include_entities` parameter is always set, from the zero value of the
options when the pointer is nil. -/
def likeQuery (path id : String) (opts : Option Options) : Query :=
  let q := Options.addQueryParams opts
    { request := { method := path ++ ".json", httpMethod := "POST", params := [("id", [id])] } }
  Query.setParam q "include_entities" (formatBool q.opts.entities)

/-- `ostatus.Like` (src/ostatus/query.go lines 90–92). -/
def Like (id : String) (opts : Option Options) : Query :=
  likeQuery "1.1/favorites/create" id opts

/-- `ostatus.Unlike` (src/ostatus/query.go lines 98–100). -/
def Unlike (id : String) (opts : Option Options) : Query :=
  likeQuery "1.1/favorites/destroy" id opts

/-- `ostatus.TimelineQuery` (src/ostatus/query.go lines 276–279). -/
structure TimelineQuery where
  request : JHttp.Request
  opts : TwitterTypes.TweetFields := {}
deriving DecidableEq

/-- Replace one timeline-query parameter. -/
def TimelineQuery.setParam (q : TimelineQuery) (k v : String) : TimelineQuery :=
  { q with request := { q.request with params := JHttp.Params.set q.request.params k v } }

/-- `ostatus.TimelineOpts` (src/ostatus/query.go lines 212–237).
`maxResults` is a Go `int`. -/
structure TimelineOpts where
  byID : Bool := false
  maxResults : Int := 0
  excludeReplies : Bool := false
  includeRetweets : Bool := false
  includeEntities : Bool := false
  sinceID : String := ""
  untilID : String := ""
  optional : TwitterTypes.TweetFields := {}
deriving DecidableEq

/-- `(*TimelineOpts).keyField` (src/ostatus/query.go lines 239–244):
`user_id` only when the receiver is non-nil and `ByID` is set. -/
def TimelineOpts.keyField (o : Option TimelineOpts) : String :=
  match o with
  | some o => if o.byID then "user_id" else "screen_name"
  | none => "screen_name"

/-- `(*TimelineOpts).addQueryParams` (src/ostatus/query.go lines 246–273):
sets the user key, `trim_user`, and `tweet_mode` unconditionally, then
returns early on a nil receiver; otherwise applies each optional field,
skipping zero values. -/
def TimelineOpts.addQueryParams (o : Option TimelineOpts) (key : String)
    (q : TimelineQuery) : TimelineQuery :=
  let q1 := TimelineQuery.setParam q (TimelineOpts.keyField o) key
  let q2 := TimelineQuery.setParam q1 "trim_user" "true"
  let q3 := TimelineQuery.setParam q2 "tweet_mode" "extended"
  match o with
  | none => q3
  | some o =>
    let q4 := { q3 with opts := o.optional }
    let q5 :=
      if o.maxResults > 0 then TimelineQuery.setParam q4 "count" (toString o.maxResults) else q4
    let q6 := if o.excludeReplies then TimelineQuery.setParam q5 "exclude_replies" "true" else q5
    let q7 := if o.includeRetweets then TimelineQuery.setParam q6 "include_rts" "true" else q6
    let q8 :=
      if o.includeEntities then
        let qe := TimelineQuery.setParam q7 "include_entities" "true"
        { qe with opts := { qe.opts with entities := true } }
      else q7
    let q9 := if o.sinceID ≠ "" then TimelineQuery.setParam q8 "since_id" o.sinceID else q8
    if o.untilID ≠ "" then TimelineQuery.setParam q9 "max_id" o.untilID else q9

/-- `ostatus.makeTLQuery` (src/ostatus/query.go lines 176–185). -/
def makeTLQuery (id method : String) (opts : Option TimelineOpts) : TimelineQuery :=
  TimelineOpts.addQueryParams opts id
    { request := { method := "1.1/statuses/" ++ method ++ "_timeline.json", params := [] } }

/-- `ostatus.UserTimeline` (src/ostatus/query.go lines 190–192). -/
def UserTimeline (id : String) (opts : Option TimelineOpts) : TimelineQuery :=
  makeTLQuery id "user" opts

/-- `ostatus.HomeTimeline` (src/ostatus/query.go lines 198–200). -/
def HomeTimeline (id : String) (opts : Option TimelineOpts) : TimelineQuery :=
  makeTLQuery id "home" opts

/-- `ostatus.MentionsTimeline` (src/ostatus/query.go lines 206–208). -/
def MentionsTimeline (id : String) (opts : Option TimelineOpts) : TimelineQuery :=
  makeTLQuery id "mentions" opts

/-- `ostatus.Reply` (src/ostatus/query.go lines 171–174), with the converted
tweet type abstract. -/
structure Reply (tweet : Type) where
  data : JHttp.Bytes
  tweets : List tweet

/-- `ostatus.Query.Invoke` (src/ostatus/query.go lines 109–122), embedded
with `cli.CallRaw` abstracted by its result `callRaw`, `json.Unmarshal` into
`otypes.Tweet` by the decoder `unmarshal`, and the external
`otypes.Tweet.ToTweetV2` conversion by `toTweetV2`.  Transport failure
returns that error with no reply; decode failure returns a `jhttp.Error`
with message "decoding response body" wrapping the decode error, with no
reply. -/
def Invoke {τ δ ot tw : Type} (callRaw : Except τ JHttp.Bytes)
    (unmarshal : JHttp.Bytes → Except δ ot) (toTweetV2 : ot → TwitterTypes.TweetFields → tw)
    (opts : TwitterTypes.TweetFields) : Except (JHttp.GoError τ δ) (Reply tw) :=
  match callRaw with
  | .error e => .error (.transport e)
  | .ok data =>
    match unmarshal data with
    | .error err => .error (.jhttpError "decoding response body" err)
    | .ok rsp => .ok ⟨data, [toTweetV2 rsp opts]⟩

end OStatus

namespace OStatus

/-- C10: Every ostatus query constructor is total on a nil options pointer
(modelled as `none`): `Create` with nil `*CreateOpts`,
`Delete`/`Retweet`/`Unretweet`/`Like`/`Unlike` with nil `*Options`, and
`UserTimeline`/`HomeTimeline`/`MentionsTimeline` with nil `*TimelineOpts`
all construct a query equal to the one built from zero-valued options, whose
parameters are exactly the constructor's defaults. -/
theorem constructors_total_on_nil (text id : String) :
    (Create text none = Create text (some {}) ∧
      Create text none =
        { request :=
            { method := "1.1/statuses/update.json", httpMethod := "POST",
              params := [("status", [text]), ("trim_user", ["true"]),
                ("tweet_mode", ["extended"])],
              bodyFromParams := true } }) ∧
    (Delete id none = Delete id (some {}) ∧
      Delete id none =
        { request :=
            { method := "1.1/statuses/destroy/" ++ id ++ ".json", httpMethod := "POST",
              params := [("trim_user", ["true"])] } }) ∧
    (Retweet id none = Retweet id (some {}) ∧
      Retweet id none =
        { request :=
            { method := "1.1/statuses/retweet/" ++ id ++ ".json", httpMethod := "POST",
              params := [("trim_user", ["true"])] } }) ∧
    (Unretweet id none = Unretweet id (some {}) ∧
      Unretweet id none =
        { request :=
            { method := "1.1/statuses/unretweet/" ++ id ++ ".json", httpMethod := "POST",
              params := [("trim_user", ["true"])] } }) ∧
    (Like id none = Like id (some {}) ∧
      Like id none =
        { request :=
            { method := "1.1/favorites/create.json", httpMethod := "POST",
              params := [("id", [id]), ("include_entities", ["false"])] } }) ∧
    (Unlike id none = Unlike id (some {}) ∧
      Unlike id none =
        { request :=
            { method := "1.1/favorites/destroy.json", httpMethod := "POST",
              params := [("id", [id]), ("include_entities", ["false"])] } }) ∧
    (UserTimeline id none = UserTimeline id (some {}) ∧
      UserTimeline id none =
        { request :=
            { method := "1.1/statuses/user_timeline.json",
              params := [("screen_name", [id]), ("trim_user", ["true"]),
                ("tweet_mode", ["extended"])] } }) ∧
    (HomeTimeline id none = HomeTimeline id (some {}) ∧
      HomeTimeline id none =
        { request :=
            { method := "1.1/statuses/home_timeline.json",
              params := [("screen_name", [id]), ("trim_user", ["true"]),
                ("tweet_mode", ["extended"])] } }) ∧
    (MentionsTimeline id none = MentionsTimeline id (some {}) ∧
      MentionsTimeline id none =
        { request :=
            { method := "1.1/statuses/mentions_timeline.json",
              params := [("screen_name", [id]), ("trim_user", ["true"]),
                ("tweet_mode", ["extended"])] } }) :=
  ⟨⟨rfl, rfl⟩, ⟨rfl, rfl⟩, ⟨rfl, rfl⟩, ⟨rfl, rfl⟩, ⟨rfl, rfl⟩, ⟨rfl, rfl⟩,
   ⟨rfl, rfl⟩, ⟨rfl, rfl⟩, ⟨rfl, rfl⟩⟩

end OStatus

namespace TwitterQueries

/-- C4: For every query value and every response body: if the transport call
fails, `Invoke` returns no reply together with that transport error
unchanged; if JSON decoding of the body fails, `Invoke` returns no reply
together with the structured `jhttp.Error` ("decoding response body")
wrapping the decode error — never a silently-defaulted or partial reply.
Stated for both `oaccount.Query.Invoke` and `ostatus.Query.Invoke`. -/
theorem invoke_error_paths {τ δ ρ ot tw : Type}
    (callRaw : Except τ JHttp.Bytes)
    (unmarshalVC : JHttp.Bytes → Except δ (Option ρ))
    (unmarshalTweet : JHttp.Bytes → Except δ ot)
    (toTweetV2 : ot → TwitterTypes.TweetFields → tw) (opts : TwitterTypes.TweetFields) :
    (∀ e, callRaw = .error e →
        OAccount.Invoke callRaw unmarshalVC = .error (.transport e) ∧
        OStatus.Invoke callRaw unmarshalTweet toTweetV2 opts = .error (.transport e)) ∧
    (∀ data je, callRaw = .ok data → unmarshalVC data = .error je →
        OAccount.Invoke callRaw unmarshalVC =
          .error (.jhttpError "decoding response body" je)) ∧
    (∀ data je, callRaw = .ok data → unmarshalTweet data = .error je →
        OStatus.Invoke callRaw unmarshalTweet toTweetV2 opts =
          .error (.jhttpError "decoding response body" je)) := by
  refine ⟨?_, ?_, ?_⟩
  · rintro e rfl
    exact ⟨rfl, rfl⟩
  · rintro data je rfl hje
    simp [OAccount.Invoke, hje]
  · rintro data je rfl hje
    simp [OStatus.Invoke, hje]

/-- Witness for C4 at concrete instantiations: a failing transport call
surfaces the transport error, and a failing decode surfaces the structured
decode error, for both `Invoke` embeddings. -/
theorem invoke_error_paths_witness :
    (OAccount.Invoke (Except.error 5 : Except Nat JHttp.Bytes)
        (fun _ => (Except.ok none : Except Nat (Option Nat))) =
      Except.error (JHttp.GoError.transport 5)) ∧
    (OAccount.Invoke (Except.ok [] : Except Nat JHttp.Bytes)
        (fun _ => (Except.error 3 : Except Nat (Option Nat))) =
      Except.error (JHttp.GoError.jhttpError "decoding response body" 3)) :=
  ⟨((invoke_error_paths (Except.error 5 : Except Nat JHttp.Bytes)
      (fun _ => (Except.ok none : Except Nat (Option Nat)))
      (fun _ => (Except.ok 0 : Except Nat Nat))
      (fun n _ => n) {}).1 5 rfl).1,
   (invoke_error_paths (Except.ok [] : Except Nat JHttp.Bytes)
      (fun _ => (Except.error 3 : Except Nat (Option Nat)))
      (fun _ => (Except.ok 0 : Except Nat Nat))
      (fun n _ => n) {}).2.1 [] 3 rfl rfl⟩

end TwitterQueries
